import Mathlib

/-!
Verification development for the JMComicDownloader plugin (src/main.py).

The plugin's orchestration core is embedded shallowly:

* Blocking external collaborators (filesystem existence checks, the cache
  index query `ui.search_cache`, the blocking fetch `client.download_album`,
  and the file upload transport) are supplied as an explicit environment
  record `Env`.  Calls that can raise a Python exception return
  `Except PyExc _`.
* Observable effects (replies sent via `send_reply`, file uploads, log
  lines, and the invocations of the cache index and the fetch call) are
  collected in order as a `List Action`.
* Python exceptions are values of type `PyExc`; a function body that can
  raise returns the actions it emitted before raising together with an
  `Option PyExc`.  The task-boundary `try/except` of `process_download`
  (src/main.py lines 230 and 291-293) turns a raised exception into the
  logged generic-error reply.

A faithfulness note on src/main.py lines 269-271: after the fetch call
returns, the code unconditionally executes
`await self.send_reply(event, f"下载 {album_id} 失败: {dl.msg}")` followed by
`return`.  The name `dl` is bound nowhere in the file (the fetch result is
bound to `dl_result`), so evaluating that f-string raises
`NameError: name 'dl' is not defined`, which the task-boundary handler at
line 291 catches.  Consequently lines 273-289 (path resolution, fallback,
packaging-failure reply, delivery of a downloaded file) are unreachable.
The embedding reproduces this: after a successful return of the fetch call
the body raises `PyExc.nameError "dl"`.
-/

namespace JMPlugin

/-- A Python exception value, as observed through `str(e)`. -/
inductive PyExc where
  | nameError (missing : String)
  | runtimeError (msg : String)
deriving DecidableEq

/-- The text `str(e)` interpolated into f-strings by the handlers. -/
def PyExc.toMsg : PyExc → String
  | PyExc.nameError missing => "name '" ++ missing ++ "' is not defined"
  | PyExc.runtimeError msg => msg

/-- One observable effect of a handler, in emission order. -/
inductive Action where
  | reply (msg : String)
  | uploadFile (path : String) (nm : String)
  | searchCacheCall (album_id : String)
  | fetchCall (album_id : String)
  | logInfo (msg : String)
  | logWarning (msg : String)
  | logError (msg : String)
  | logException (msg : String)
deriving DecidableEq

/-- Result of `ui.search_cache(album_id)` (the local cache index). -/
structure SearchCacheResult where
  ok : Bool
  file_list : List String
deriving DecidableEq

/-- The `album` member of a `DownloadResult`; `file_path` is `None` or a
string (an empty string is as falsy as `None` for the line-278 check). -/
structure JmAlbum where
  file_path : Option String
deriving DecidableEq

/-- Result of `client.download_album(album_id)` (the blocking fetch). -/
structure DownloadResult where
  ok : Bool
  msg : String
  album : JmAlbum
deriving DecidableEq

/-- One entry of a search result, as formatted by `handle_jm_search`. -/
structure JmAlbumDetail where
  id : String
  title : String
  author_list : List String
deriving DecidableEq

/-- Result of `client.search_album(keyword)`. -/
structure SearchResult where
  ok : Bool
  msg : String
  album_list : List JmAlbumDetail
deriving DecidableEq

/-- The inbound message context used by the handlers: `message_type`
decides group versus private replies, `user_id` feeds the CQ at-code. -/
structure MessageEvent where
  message_type : String
  user_id : String
  group_id : String
deriving DecidableEq

/-- The external world of one orchestration run: the configured download
directory, the filesystem, the cache index, the blocking fetch, and the
upload transport.  The index query and the fetch may raise; an upload
failure is reported as the exception it raised (or `none` on success). -/
structure Env where
  download_dir : String
  fsExists : String → Bool
  searchCache : String → Except PyExc SearchCacheResult
  downloadAlbum : String → Except PyExc DownloadResult
  upload : String → Option PyExc

/-- Python's `str.startswith`, structurally on the character lists (the
library's `String.startsWith` does not reduce in the kernel). -/
def py_startswith (s : String) (pre : String) : Bool :=
  List.isPrefixOf pre.data s.data

/-- Python's `str.endswith`, structurally on the character lists. -/
def py_endswith (s : String) (suffix : String) : Bool :=
  List.isSuffixOf suffix.data s.data

/-- `os.path.join` for the two-argument POSIX cases exercised here. -/
def os_path_join (d : String) (n : String) : String :=
  if py_startswith n "/" then n
  else if d = "" then n
  else if py_endswith d "/" then d ++ n
  else d ++ "/" ++ n

/-- `os.path.basename`: the part after the last slash. -/
def os_path_basename (p : String) : String :=
  String.mk ((p.data.reverse.takeWhile (fun c => c ≠ '/')).reverse)

/-- Python's `str.strip()` with no argument: drop whitespace from both
ends.  Defined by structural recursion on the character list so that
concrete runs reduce (the library's `String.trim` is well-founded and does
not). -/
def py_strip (s : String) : String :=
  String.mk
    (((s.data.dropWhile Char.isWhitespace).reverse.dropWhile
        Char.isWhitespace).reverse)

/-- Equality on `Except` values is decidable componentwise. -/
instance exceptDecEq {ε α : Type} [DecidableEq ε] [DecidableEq α] :
    DecidableEq (Except ε α) := fun x y =>
  match x, y with
  | Except.ok a, Except.ok b =>
    if h : a = b then Decidable.isTrue (by rw [h])
    else Decidable.isFalse (fun hc => h (Except.ok.inj hc))
  | Except.ok _, Except.error _ => Decidable.isFalse (fun hc => Except.noConfusion hc)
  | Except.error _, Except.ok _ => Decidable.isFalse (fun hc => Except.noConfusion hc)
  | Except.error e, Except.error f =>
    if h : e = f then Decidable.isTrue (by rw [h])
    else Decidable.isFalse (fun hc => h (Except.error.inj hc))

/-- Accumulator pass behind `re_findall_digits`: collects maximal runs of
decimal digits.  `acc` holds the current run reversed. -/
def findDigitRunsAux : List Char → List Char → List String
  | [], acc => if acc.isEmpty then [] else [String.mk acc.reverse]
  | c :: cs, acc =>
    if c.isDigit then findDigitRunsAux cs (c :: acc)
    else if acc.isEmpty then findDigitRunsAux cs []
    else String.mk acc.reverse :: findDigitRunsAux cs []

/-- `re.findall(r"\d+", s)` restricted to ASCII decimal digits: the list of
maximal digit runs of `s`, in order, one entry per occurrence. -/
def re_findall_digits (s : String) : List String :=
  findDigitRunsAux s.data []

/-- The CQ at-code prefix: `[CQ:at,qq=<user>]` in a group chat, the empty
string in a private chat (src/main.py line 118 and analogues). -/
def at_user_of (ev : MessageEvent) : String :=
  if ev.message_type = "group" then "[CQ:at,qq=" ++ ev.user_id ++ "]" else ""

/-- `send_file_and_notify` (src/main.py lines 295-321): one upload call,
then either the completion reply or, if the transport raised, the logged
delivery-failure reply.  The upload call itself is always emitted, since
the transport was invoked either way. -/
def send_file_and_notify (env : Env) (file_path : String) (album_id : String)
    (at_user : String) : List Action :=
  let file_name := os_path_basename file_path
  match env.upload file_path with
  | none =>
    [Action.uploadFile file_path file_name,
     Action.reply (py_strip (at_user ++ " 漫画 " ++ album_id ++ " (" ++ file_name
       ++ ") 已发送完成。"))]
  | some e =>
    [Action.uploadFile file_path file_name,
     Action.logError ("发送文件 " ++ file_name ++ " (ID: " ++ album_id
       ++ ") 时失败: " ++ e.toMsg),
     Action.reply ("发送文件 " ++ album_id ++ " 时失败: " ++ e.toMsg)]

/-- The cache probe of `process_download` (src/main.py lines 236-248):
first the O(1) existence check of `<download_dir>/<album_id>.pdf`; only on
a miss the index query `ui.search_cache`, whose `file_list` is scanned (on
`ok`) for the first entry ending in `<album_id>.pdf`.  Returns the actions
emitted (the index invocation, when it happened) and the found path, or
the exception the index query raised. -/
def locate_cache (env : Env) (album_id : String) :
    List Action × Except PyExc (Option String) :=
  let expected_pdf_path := os_path_join env.download_dir (album_id ++ ".pdf")
  if env.fsExists expected_pdf_path then
    ([], Except.ok (some expected_pdf_path))
  else
    match env.searchCache album_id with
    | Except.error e => ([Action.searchCacheCall album_id], Except.error e)
    | Except.ok sr =>
      ([Action.searchCacheCall album_id],
       Except.ok (if sr.ok then
         sr.file_list.find? (fun fp => py_endswith fp (album_id ++ ".pdf"))
       else none))

/-- The actions of the cache-hit branch (src/main.py lines 250-255). -/
def cache_hit_actions (env : Env) (album_id : String) (at_user : String)
    (pdf_path : String) : List Action :=
  Action.logInfo ("找到 " ++ album_id ++ " 的缓存: " ++ pdf_path)
    :: Action.reply ("找到 " ++ album_id ++ " 的本地缓存，准备发送...")
    :: send_file_and_notify env pdf_path album_id at_user

/-- The body of `process_download`'s try block (src/main.py lines 231-289):
the actions emitted and, when a step raised, the exception.  On a cache
miss the fetch call is made; whatever it returns, line 270 then evaluates
an f-string over the unbound name `dl` and raises `NameError` (see the
header comment), so no branch past the fetch completes normally. -/
def process_download_body (env : Env) (album_id : String) (at_user : String) :
    List Action × Option PyExc :=
  let a0 := Action.logInfo ("正在为 " ++ album_id ++ " 搜索本地缓存...")
  match locate_cache env album_id with
  | (acts, Except.error e) => (a0 :: acts, some e)
  | (acts, Except.ok (some pdf_path)) =>
    (a0 :: acts ++ cache_hit_actions env album_id at_user pdf_path, none)
  | (acts, Except.ok none) =>
    let pre := a0 :: acts ++
      [Action.logInfo ("未找到 " ++ album_id ++ " 的缓存，开始下载..."),
       Action.reply ("开始下载漫画 " ++ album_id ++ "，这可能需要一些时间..."),
       Action.fetchCall album_id]
    match env.downloadAlbum album_id with
    | Except.error e => (pre, some e)
    | Except.ok _dl_result => (pre, some (PyExc.nameError "dl"))

/-- `process_download` (src/main.py lines 226-293): the try body, with the
task-boundary `except Exception` turning a raised exception into the
logged generic-error reply of lines 292-293. -/
def process_download (env : Env) (album_id : String) (at_user : String) :
    List Action :=
  match process_download_body env album_id at_user with
  | (acts, none) => acts
  | (acts, some e) =>
    acts ++
      [Action.logException ("处理 " ++ album_id ++ " 时发生未知错误: "
         ++ e.toMsg),
       Action.reply ("处理 " ++ album_id ++ " 时发生严重错误: " ++ e.toMsg)]

/-- Outcome of the `/jm` dispatcher: the replies it sent and the album ids
it spawned one `process_download` task for, in order, never awaited. -/
structure DispatchResult where
  replies : List String
  spawned : List String
deriving DecidableEq

/-- `handle_jm_command` (src/main.py lines 104-128) on the text captured by
`(.*)` of the command pattern: extract every digit run, reply a validation
message and spawn nothing when there is none, otherwise acknowledge with
the count and spawn one task per occurrence.  The jmcomic-missing guard of
lines 109-111 is outside this model: the library is loaded. -/
def handle_jm_command (ev : MessageEvent) (g1 : String) : DispatchResult :=
  let text_content := py_strip g1
  let album_ids := re_findall_digits text_content
  let at_user := at_user_of ev
  if album_ids.isEmpty then
    { replies := [py_strip (at_user ++ " 请提供至少一个有效的漫画 ID。")],
      spawned := [] }
  else
    { replies := [py_strip (at_user ++ " 收到！准备处理 " ++ toString album_ids.length
        ++ " 个漫画 ID...")],
      spawned := album_ids }

/-- One formatted block of `handle_jm_search` (src/main.py lines 211-216):
ID, title and author lines followed by the rule line. -/
def format_album_block (album : JmAlbumDetail) : String :=
  let authors := if album.author_list.isEmpty then "N/A"
    else String.intercalate ", " album.author_list
  "ID: " ++ album.id ++ "\n标题: " ++ album.title ++ "\n作者: " ++ authors
    ++ "\n--------------------------\n"

/-- `handle_jm_search` (src/main.py lines 171-224) on the text captured by
`(.*)`, with the blocking `client.search_album` supplied as a fallible
function: the list of replies sent, in order.  The jmcomic-missing guard
is outside this model. -/
def handle_jm_search (ev : MessageEvent) (g1 : String)
    (search_album : String → Except PyExc SearchResult) : List String :=
  let search_query := py_strip g1
  if search_query = "" then
    ["请输入搜索关键词。用法: /jm_search [关键词]"]
  else
    let at_user := at_user_of ev
    let ack := py_strip (at_user ++ " 正在搜索: '" ++ search_query ++ "'...")
    match search_album search_query with
    | Except.error e => [ack, py_strip (at_user ++ " 搜索时出错: " ++ e.toMsg)]
    | Except.ok sr =>
      if !sr.ok then [ack, py_strip (at_user ++ " 搜索失败: " ++ sr.msg)]
      else if sr.album_list.isEmpty then
        [ack, py_strip (at_user ++ " 未找到与 '" ++ search_query
          ++ "' 相关的结果。")]
      else
        let shown := sr.album_list.take 5
        let reply_msg := "搜索 '" ++ search_query ++ "' 的结果 (前 "
          ++ toString shown.length ++ " 条):\n"
          ++ "--------------------------\n"
          ++ String.join (shown.map format_album_block)
          ++ "使用 /jm [ID] 来下载。"
        [ack, py_strip (at_user ++ "\n" ++ reply_msg)]

/-- The identifiers passed to the fetch call, in call order. -/
def fetch_calls (l : List Action) : List String :=
  l.filterMap (fun a => match a with
    | Action.fetchCall i => some i
    | _ => none)

/-- The identifiers passed to the cache-index query, in call order. -/
def search_cache_calls (l : List Action) : List String :=
  l.filterMap (fun a => match a with
    | Action.searchCacheCall i => some i
    | _ => none)

/-- The paths handed to the upload transport, in call order. -/
def upload_paths (l : List Action) : List String :=
  l.filterMap (fun a => match a with
    | Action.uploadFile p _ => some p
    | _ => none)

/-- How many replies in the trace carry exactly the message `m`. -/
def count_reply (l : List Action) (m : String) : Nat :=
  (l.filter (fun a => a = Action.reply m)).length

/-- Concrete run for C1: cache miss everywhere, the fetch reports
`ok=false` with message "network error", uploads would succeed. -/
def envC1 : Env where
  download_dir := "/out"
  fsExists := fun _ => false
  searchCache := fun _ => Except.ok { ok := true, file_list := [] }
  downloadAlbum := fun _ => Except.ok
    { ok := false, msg := "network error", album := { file_path := none } }
  upload := fun _ => none

/-- Concrete run for C2: cache miss, the fetch reports `ok=true` with the
resolved path `/out/350234.pdf`. -/
def envC2 : Env where
  download_dir := "/out"
  fsExists := fun _ => false
  searchCache := fun _ => Except.ok { ok := true, file_list := [] }
  downloadAlbum := fun _ => Except.ok
    { ok := true, msg := "ok", album := { file_path := some "/out/350234.pdf" } }
  upload := fun _ => none

/-- Concrete run for C3: cache miss, the fetch reports `ok=true` with an
absent resolved path, and the fallback `/out/350234.pdf` does not exist. -/
def envC3 : Env where
  download_dir := "/out"
  fsExists := fun _ => false
  searchCache := fun _ => Except.ok { ok := true, file_list := [] }
  downloadAlbum := fun _ => Except.ok
    { ok := true, msg := "ok", album := { file_path := none } }
  upload := fun _ => none

/-- Concrete run for C10: `/out/350234.pdf` does not exist, but the cache
index lists `/out/1350234.pdf`, the artifact of the distinct identifier
1350234, whose name ends in `350234.pdf`. -/
def envC10 : Env where
  download_dir := "/out"
  fsExists := fun _ => false
  searchCache := fun _ => Except.ok { ok := true, file_list := ["/out/1350234.pdf"] }
  downloadAlbum := fun _ => Except.error (PyExc.runtimeError "fetch should not happen")
  upload := fun _ => none

/-- Concrete run for the C4 witness: `/out/350234.pdf` exists. -/
def envW4 : Env where
  download_dir := "/out"
  fsExists := fun p => p == "/out/350234.pdf"
  searchCache := fun _ => Except.error (PyExc.runtimeError "index should not be hit")
  downloadAlbum := fun _ => Except.error (PyExc.runtimeError "fetch should not happen")
  upload := fun _ => none

/-- Concrete run for the C5 witness: no file, empty index. -/
def envW5 : Env where
  download_dir := "/out"
  fsExists := fun _ => false
  searchCache := fun _ => Except.ok { ok := true, file_list := [] }
  downloadAlbum := fun _ => Except.ok
    { ok := true, msg := "ok", album := { file_path := some "/out/350234.pdf" } }
  upload := fun _ => none

/-- Concrete run for the C6 witness: no file on the direct path. -/
def envW6 : Env where
  download_dir := "/data/pdf"
  fsExists := fun _ => false
  searchCache := fun _ => Except.ok { ok := false, file_list := [] }
  downloadAlbum := fun _ => Except.error (PyExc.runtimeError "unused")
  upload := fun _ => none

/-- Concrete event for the C7 witness: a private chat. -/
def evW7 : MessageEvent where
  message_type := "private"
  user_id := "42"
  group_id := ""

/-- Concrete event for the C8 witness: a group chat. -/
def evW8 : MessageEvent where
  message_type := "group"
  user_id := "7777"
  group_id := "123456"

/-- Seven search hits for the C8 witness. -/
def albumsW8 : List JmAlbumDetail :=
  [{ id := "101", title := "t1", author_list := ["a1"] },
   { id := "102", title := "t2", author_list := ["a2", "a3"] },
   { id := "103", title := "t3", author_list := [] },
   { id := "104", title := "t4", author_list := ["a4"] },
   { id := "105", title := "t5", author_list := ["a5"] },
   { id := "106", title := "t6", author_list := ["a6"] },
   { id := "107", title := "t7", author_list := ["a7"] }]

/-- The search collaborator for the C8 witness: seven hits, `ok`. -/
def searchW8 : String → Except PyExc SearchResult :=
  fun _ => Except.ok { ok := true, msg := "", album_list := albumsW8 }

/-- Concrete run for the C9 witness: the blocking fetch raises. -/
def envW9 : Env where
  download_dir := "/out"
  fsExists := fun _ => false
  searchCache := fun _ => Except.ok { ok := false, file_list := [] }
  downloadAlbum := fun _ => Except.error (PyExc.runtimeError "boom")
  upload := fun _ => none

/-- C1: the claim says that on a cache-miss run whose fetch returns
`ok=false`, no delivery call is made and the failure reply's text equals
the outcome's message field.  On the code, the run at `envC1` (fetch
message "network error") makes no upload call, but the reply the user sees
is the generic boundary-handler message carrying the `NameError` raised by
line 270's reference to the unbound name `dl`; no reply ever carries the
outcome's message.  The theorem evaluates the code at that failing
input. -/
theorem C1_fetch_failure_reply_bug :
    process_download envC1 "350234" "" =
      [Action.logInfo "正在为 350234 搜索本地缓存...",
       Action.searchCacheCall "350234",
       Action.logInfo "未找到 350234 的缓存，开始下载...",
       Action.reply "开始下载漫画 350234，这可能需要一些时间...",
       Action.fetchCall "350234",
       Action.logException "处理 350234 时发生未知错误: name 'dl' is not defined",
       Action.reply "处理 350234 时发生严重错误: name 'dl' is not defined"] ∧
    upload_paths (process_download envC1 "350234" "") = [] ∧
    count_reply (process_download envC1 "350234" "") "下载 350234 失败: network error" = 0 ∧
    count_reply (process_download envC1 "350234" "") "network error" = 0 := by
  refine ⟨?_, ?_, ?_, ?_⟩ <;> decide

/-- C2: the claim says that on a cache-miss run whose fetch returns
`ok=true` with resolved path `/out/350234.pdf`, exactly one delivery call
with that path is made and a completion reply containing "350234" follows.
On the code, the run at `envC2` makes no upload call at all and ends in
the generic `NameError` reply: line 270 fires before the success path, so
lines 273-289 never run.  The theorem evaluates the code at that failing
input. -/
theorem C2_success_path_bug :
    process_download envC2 "350234" "" =
      [Action.logInfo "正在为 350234 搜索本地缓存...",
       Action.searchCacheCall "350234",
       Action.logInfo "未找到 350234 的缓存，开始下载...",
       Action.reply "开始下载漫画 350234，这可能需要一些时间...",
       Action.fetchCall "350234",
       Action.logException "处理 350234 时发生未知错误: name 'dl' is not defined",
       Action.reply "处理 350234 时发生严重错误: name 'dl' is not defined"] ∧
    upload_paths (process_download envC2 "350234" "") = [] ∧
    count_reply (process_download envC2 "350234" "")
      (py_strip " 漫画 350234 (350234.pdf) 已发送完成。") = 0 := by
  refine ⟨?_, ?_, ?_⟩ <;> decide

/-- C3: the claim says that on a fetch returning `ok=true` with an absent
resolved path, the code falls back to `/out/350234.pdf` and, that path
being absent, replies with the packaging-failure message and makes no
delivery call.  On the code, the run at `envC3` never reaches the fallback
logic (lines 273-289 are dead past line 271): it makes no upload call and
replies with the generic `NameError` message, not the packaging-failure
one.  The theorem evaluates the code at that failing input. -/
theorem C3_path_fallback_bug :
    process_download envC3 "350234" "" =
      [Action.logInfo "正在为 350234 搜索本地缓存...",
       Action.searchCacheCall "350234",
       Action.logInfo "未找到 350234 的缓存，开始下载...",
       Action.reply "开始下载漫画 350234，这可能需要一些时间...",
       Action.fetchCall "350234",
       Action.logException "处理 350234 时发生未知错误: name 'dl' is not defined",
       Action.reply "处理 350234 时发生严重错误: name 'dl' is not defined"] ∧
    upload_paths (process_download envC3 "350234" "") = [] ∧
    count_reply (process_download envC3 "350234" "")
      "下载 350234 成功，但 PDF 打包失败。请检查后台日志。" = 0 := by
  refine ⟨?_, ?_, ?_⟩ <;> decide

/-- C10: the index fallback matches by unanchored string suffix.  With
identifier 350234 absent on the direct path but the index listing
`/out/1350234.pdf` (the artifact of the distinct identifier 1350234,
whose name ends in `350234.pdf`), the probe reports a hit on that foreign
artifact, the run uploads it, and no fetch call is ever made. -/
theorem C10_suffix_collision :
    locate_cache envC10 "350234" =
      ([Action.searchCacheCall "350234"], Except.ok (some "/out/1350234.pdf")) ∧
    fetch_calls (process_download envC10 "350234" "") = [] ∧
    upload_paths (process_download envC10 "350234" "") = ["/out/1350234.pdf"] ∧
    count_reply (process_download envC10 "350234" "")
      (py_strip " 漫画 350234 (1350234.pdf) 已发送完成。") = 1 := by
  refine ⟨?_, ?_, ?_, ?_⟩ <;> decide

/-- C4: when `<download_dir>/<album_id>.pdf` exists, the run delivers that
cached artifact (one upload call with exactly that path), never invokes
the fetch call, and never even queries the cache index.  In particular a
second invocation for an already-delivered identifier whose artifact
persisted performs no second fetch. -/
theorem C4_cache_hit_no_fetch (env : Env) (album_id : String) (at_user : String)
    (h : env.fsExists (os_path_join env.download_dir (album_id ++ ".pdf")) = true) :
    fetch_calls (process_download env album_id at_user) = [] ∧
    search_cache_calls (process_download env album_id at_user) = [] ∧
    upload_paths (process_download env album_id at_user) =
      [os_path_join env.download_dir (album_id ++ ".pdf")] := by
  simp only [process_download, process_download_body, locate_cache, h, if_true,
    cache_hit_actions, send_file_and_notify]
  cases env.upload (os_path_join env.download_dir (album_id ++ ".pdf")) <;>
    simp [fetch_calls, search_cache_calls, upload_paths]

/-- C4 witness: at `envW4` the artifact `/out/350234.pdf` exists and the
run delivers it with no fetch and no index query. -/
theorem C4_cache_hit_no_fetch_witness :
    envW4.fsExists (os_path_join envW4.download_dir ("350234" ++ ".pdf")) = true ∧
    (fetch_calls (process_download envW4 "350234" "") = [] ∧
     search_cache_calls (process_download envW4 "350234" "") = [] ∧
     upload_paths (process_download envW4 "350234" "") =
       [os_path_join envW4.download_dir ("350234" ++ ".pdf")]) :=
  ⟨by decide, C4_cache_hit_no_fetch envW4 "350234" "" (by decide)⟩

/-- C5: when the expected artifact path does not exist and the cache-index
search completes without a matching entry, the run invokes the blocking
fetch call exactly once, with the identifier as its sole argument. -/
theorem C5_miss_single_fetch (env : Env) (album_id : String) (at_user : String)
    (sr : SearchCacheResult)
    (h1 : env.fsExists (os_path_join env.download_dir (album_id ++ ".pdf")) = false)
    (h2 : env.searchCache album_id = Except.ok sr)
    (h3 : (if sr.ok then
        sr.file_list.find? (fun fp => py_endswith fp (album_id ++ ".pdf"))
      else none) = none) :
    fetch_calls (process_download env album_id at_user) = [album_id] := by
  simp only [process_download, process_download_body, locate_cache, h1, h2, h3,
    if_false, Bool.false_eq_true]
  cases env.downloadAlbum album_id <;>
    simp [fetch_calls]

/-- C5 witness: at `envW5` (no file, empty index) the run makes exactly
the fetch call with "350234". -/
theorem C5_miss_single_fetch_witness :
    envW5.fsExists (os_path_join envW5.download_dir ("350234" ++ ".pdf")) = false ∧
    envW5.searchCache "350234" =
      Except.ok { ok := true, file_list := ([] : List String) } ∧
    (if ({ ok := true, file_list := ([] : List String) } : SearchCacheResult).ok then
        ({ ok := true, file_list := ([] : List String) } : SearchCacheResult).file_list.find?
          (fun fp => py_endswith fp ("350234" ++ ".pdf"))
      else none) = none ∧
    fetch_calls (process_download envW5 "350234" "") = ["350234"] :=
  ⟨by decide, by decide, by decide,
   C5_miss_single_fetch envW5 "350234" ""
     { ok := true, file_list := ([] : List String) }
     (by decide) (by decide) (by decide)⟩

/-- C6: the cache probe first checks the exact constructed path and on
existence returns it with no index query; only on a miss is the index
queried, and an ok index result is scanned for the first entry ending in
`<album_id>.pdf`, any returned entry indeed carrying that suffix. -/
theorem C6_cache_probe_order (env : Env) (album_id : String) :
    (env.fsExists (os_path_join env.download_dir (album_id ++ ".pdf")) = true →
      locate_cache env album_id =
        ([], Except.ok (some (os_path_join env.download_dir (album_id ++ ".pdf"))))) ∧
    (env.fsExists (os_path_join env.download_dir (album_id ++ ".pdf")) = false →
      (locate_cache env album_id).1 = [Action.searchCacheCall album_id] ∧
      (∀ sr : SearchCacheResult, env.searchCache album_id = Except.ok sr →
        (locate_cache env album_id).2 =
          Except.ok (if sr.ok then
            sr.file_list.find? (fun fp => py_endswith fp (album_id ++ ".pdf"))
          else none)) ∧
      (∀ p : String, (locate_cache env album_id).2 = Except.ok (some p) →
        py_endswith p (album_id ++ ".pdf") = true)) := by
  constructor
  · intro h
    simp [locate_cache, h]
  · intro h
    refine ⟨?_, ?_, ?_⟩
    · simp only [locate_cache, h, if_false, Bool.false_eq_true]
      cases env.searchCache album_id <;> simp
    · intro sr hsr
      simp [locate_cache, h, hsr]
    · intro p hp
      simp only [locate_cache, h, if_false, Bool.false_eq_true] at hp
      cases hsc : env.searchCache album_id with
      | error e => rw [hsc] at hp; simp at hp
      | ok sr =>
        rw [hsc] at hp
        simp only [Except.ok.injEq] at hp
        by_cases hok : sr.ok
        · rw [if_pos hok] at hp
          have hfind := List.find?_some hp
          simpa using hfind
        · rw [if_neg hok] at hp
          exact absurd hp (by simp)

/-- C6 witness: at `envW6` the direct path is absent, so the probe queries
the index for "7" and returns its scan result. -/
theorem C6_cache_probe_order_witness :
    envW6.fsExists (os_path_join envW6.download_dir ("7" ++ ".pdf")) = false ∧
    (locate_cache envW6 "7").1 = [Action.searchCacheCall "7"] :=
  ⟨by decide, ((C6_cache_probe_order envW6 "7").2 (by decide)).1⟩

/-- C7: the dispatcher spawns one task per numeric-token occurrence of the
command text (duplicates counted per occurrence); with no token it sends
the validation reply and spawns nothing, otherwise it sends the single
acknowledgement reply stating the count. -/
theorem C7_dispatch_fanout (ev : MessageEvent) (g1 : String) :
    (handle_jm_command ev g1).spawned = re_findall_digits (py_strip g1) ∧
    (re_findall_digits (py_strip g1) = [] →
      (handle_jm_command ev g1).replies =
        [py_strip (at_user_of ev ++ " 请提供至少一个有效的漫画 ID。")]) ∧
    (re_findall_digits (py_strip g1) ≠ [] →
      (handle_jm_command ev g1).replies =
        [py_strip (at_user_of ev ++ " 收到！准备处理 "
          ++ toString (re_findall_digits (py_strip g1)).length ++ " 个漫画 ID...")]) := by
  cases hids : re_findall_digits (py_strip g1) with
  | nil => simp [handle_jm_command, hids]
  | cons x xs => simp [handle_jm_command, hids]

/-- C7 witness: "123 456 123" has three occurrences; the dispatcher spawns
three tasks, one per occurrence, and acknowledges with count 3. -/
theorem C7_dispatch_fanout_witness :
    re_findall_digits (py_strip "123 456 123") ≠ [] ∧
    (handle_jm_command evW7 "123 456 123").spawned = ["123", "456", "123"] ∧
    (handle_jm_command evW7 "123 456 123").replies =
      [py_strip (at_user_of evW7 ++ " 收到！准备处理 "
        ++ toString (re_findall_digits (py_strip "123 456 123")).length
        ++ " 个漫画 ID...")] :=
  ⟨by decide, by decide,
   (C7_dispatch_fanout evW7 "123 456 123").2.2 (by decide)⟩

/-- C8: on a successful search with more than 5 hits, the result reply is
built from exactly the first 5 albums (5 formatted ID/title/author blocks,
each closed by the rule line) followed by the usage hint; hits beyond the
fifth are omitted. -/
theorem C8_search_top5 (ev : MessageEvent) (g1 : String)
    (search_album : String → Except PyExc SearchResult) (sr : SearchResult)
    (hq : ¬ py_strip g1 = "")
    (hs : search_album (py_strip g1) = Except.ok sr)
    (hok : sr.ok = true)
    (hn : 5 < sr.album_list.length) :
    (sr.album_list.take 5).length = 5 ∧
    handle_jm_search ev g1 search_album =
      [py_strip (at_user_of ev ++ " 正在搜索: '" ++ py_strip g1 ++ "'..."),
       py_strip (at_user_of ev ++ "\n"
         ++ ("搜索 '" ++ py_strip g1 ++ "' 的结果 (前 "
           ++ toString (sr.album_list.take 5).length ++ " 条):\n"
           ++ "--------------------------\n"
           ++ String.join ((sr.album_list.take 5).map format_album_block)
           ++ "使用 /jm [ID] 来下载。"))] := by
  have h5 : (sr.album_list.take 5).length = 5 := by
    rw [List.length_take]
    omega
  have hne : sr.album_list.isEmpty = false := by
    cases hl : sr.album_list with
    | nil => rw [hl] at hn; simp at hn
    | cons a l => simp
  refine ⟨h5, ?_⟩
  simp [handle_jm_search, hq, hs, hok, hne]

/-- C8 witness: a group-chat search returning the 7 hits of `albumsW8`
yields the reply built from the first 5 of them. -/
theorem C8_search_top5_witness :
    ¬ py_strip "abc" = "" ∧
    ((albumsW8.take 5).length = 5 ∧
     handle_jm_search evW8 "abc" searchW8 =
       [py_strip (at_user_of evW8 ++ " 正在搜索: '" ++ py_strip "abc" ++ "'..."),
        py_strip (at_user_of evW8 ++ "\n"
          ++ ("搜索 '" ++ py_strip "abc" ++ "' 的结果 (前 "
            ++ toString (albumsW8.take 5).length ++ " 条):\n"
            ++ "--------------------------\n"
            ++ String.join ((albumsW8.take 5).map format_album_block)
            ++ "使用 /jm [ID] 来下载。"))]) :=
  ⟨by decide,
   C8_search_top5 evW8 "abc" searchW8
     { ok := true, msg := "", album_list := albumsW8 }
     (by decide) (by decide) (by decide) (by decide)⟩

/-- C9: whenever any step of the try body raises, `process_download`
returns normally with the actions emitted so far followed by the logged
exception record and the generic processing-error reply, both naming the
identifier; since the function is total, no exception ever escapes the
task into a sibling task or the dispatcher. -/
theorem C9_task_boundary (env : Env) (album_id : String) (at_user : String)
    (e : PyExc)
    (h : (process_download_body env album_id at_user).2 = some e) :
    process_download env album_id at_user =
      (process_download_body env album_id at_user).1 ++
        [Action.logException ("处理 " ++ album_id ++ " 时发生未知错误: "
           ++ e.toMsg),
         Action.reply ("处理 " ++ album_id ++ " 时发生严重错误: " ++ e.toMsg)] := by
  unfold process_download
  rcases hb : process_download_body env album_id at_user with ⟨acts, exc⟩
  rw [hb] at h
  have h2 : exc = some e := h
  subst h2
  rfl

/-- C9 witness: at `envW9` the blocking fetch raises "boom"; the run ends
with the logged exception and the generic error reply for id 99. -/
theorem C9_task_boundary_witness :
    (process_download_body envW9 "99" "").2 = some (PyExc.runtimeError "boom") ∧
    process_download envW9 "99" "" =
      (process_download_body envW9 "99" "").1 ++
        [Action.logException ("处理 " ++ "99" ++ " 时发生未知错误: "
           ++ (PyExc.runtimeError "boom").toMsg),
         Action.reply ("处理 " ++ "99" ++ " 时发生严重错误: "
           ++ (PyExc.runtimeError "boom").toMsg)] :=
  ⟨by decide,
   C9_task_boundary envW9 "99" "" (PyExc.runtimeError "boom") (by decide)⟩

end JMPlugin
